import Mathlib

/-!
# CarbonLens activity-capture pipeline: a shallow embedding

This file embeds, in Lean 4, the activity-capture and delivery pipeline of
the CarbonLens browser extension:

* the background service worker (`extension/background.js`): coordinator
  state, activity handling with fingerprint deduplication, the pending-queue
  drain, mode/URL mutators, health checks and popup message handling;
* the content script (the retry-capable variant): activity dispatch,
  `sendWithRetry` with exponential backoff and queue fallback, the global
  keyboard-send guard, attachment-size scanning and the Gmail/Outlook
  compose extractors.

Conventions of the embedding:

* JS strings are Lean `String`s; string scanning is done over `List Char`.
* Timestamps (`Date.now()`) are `Nat` milliseconds supplied as parameters;
  ISO time strings are opaque `String` parameters.
* `chrome.storage.local` is an explicit `Storage` record; `undefined` /
  absent keys are `Option.none`.  `null` values ​are distinguished where the
  code distinguishes them (see field comments).
* Network and channel outcomes (fetch results, `chrome.runtime.lastError`,
  synchronous exceptions) are oracle parameters, one per attempt/operation.
* Numeric size arithmetic (`parseFloat`, divisions by 1024, `Math.round`)
  is modelled exactly over `Rat`; IEEE-754 rounding of JS numbers is not
  modelled (none of the verified properties depend on it).
* The WHATWG `URL` constructor used by `sanitizeBaseUrl` is a platform API,
  not repository code; a simplified model of it is defined below
  (`parseUrlChars` / `urlToStringChars`) covering the `scheme://host:port/
  path?query#fragment` shape: no percent-decoding, no IDNA/punycode, no
  case normalization and no dot-segment removal, which the verified
  properties do not depend on.
-/

namespace CarbonLens

/-! ## Character classes and basic list scanning -/

/-- ASCII letter, as used by the URL scheme grammar. -/
def isAlphaChar (c : Char) : Bool :=
  ('a' ≤ c && c ≤ 'z') || ('A' ≤ c && c ≤ 'Z')

/-- ASCII digit. -/
def isDigitChar (c : Char) : Bool :=
  '0' ≤ c && c ≤ '9'

/-- Characters allowed in a URL scheme after the leading letter. -/
def isSchemeChar (c : Char) : Bool :=
  isAlphaChar c || isDigitChar c || c = '+' || c = '-' || c = '.'

/-- A URL scheme: nonempty, leading ASCII letter, then scheme characters. -/
def validSchemeChars : List Char → Bool
  | [] => false
  | c :: cs => isAlphaChar c && cs.all isSchemeChar

/-- Forbidden host code points (WHATWG URL, simplified): a host containing
any of these makes the `URL` constructor throw. -/
def isForbiddenHostChar (c : Char) : Bool :=
  c = ' ' || c = '\t' || c = '\n' || c = '\r' || c = '#' || c = '/' ||
  c = ':' || c = '<' || c = '>' || c = '?' || c = '@' || c = '[' ||
  c = '\\' || c = ']' || c = '^' || c = '|'

/-- A URL host: nonempty and free of forbidden host code points. -/
def validHost (h : List Char) : Bool :=
  !h.isEmpty && h.all (fun c => !isForbiddenHostChar c)

/-- Characters that terminate the authority component. -/
def isAuthStop (c : Char) : Bool :=
  c = '/' || c = '?' || c = '#'

/-- Numeric value of a digit string. -/
def digitsVal (ds : List Char) : Nat :=
  ds.foldl (fun a c => a * 10 + (c.toNat - '0'.toNat)) 0

/-- Split a character list at the first character satisfying `p`:
returns the prefix of non-`p` characters and the rest (which is empty or
starts with a `p` character). -/
def takeUntil (p : Char → Bool) : List Char → List Char × List Char
  | [] => ([], [])
  | c :: cs =>
    if p c then ([], c :: cs)
    else
      let r := takeUntil p cs
      (c :: r.1, r.2)

/-! ## URL model (platform API used by `sanitizeBaseUrl`) -/

/-- Components of a parsed absolute URL.  The port is kept as its original
digit string (already validated); `query`/`fragment` distinguish absence
from emptiness the way `URL` does. -/
structure UrlModel where
  scheme : List Char
  host : List Char
  port : Option (List Char)
  path : List Char
  query : Option (List Char)
  fragment : Option (List Char)
deriving DecidableEq, Repr

/-- Parse `scheme ":" "//"`: the scheme must be valid and be followed by
`://` (the model only covers hierarchical URLs). -/
def parseScheme (l : List Char) : Option (List Char × List Char) :=
  let r := takeUntil (fun c => c = ':') l
  if validSchemeChars r.1 then
    match r.2 with
    | ':' :: '/' :: '/' :: rest => some (r.1, rest)
    | _ => none
  else none

/-- Parse `host [":" port]` up to the first `/`, `?` or `#`; the port must
be numeric and at most 65535 (an empty port after `:` is dropped, as in
`URL`). Returns `((host, port), rest)`. -/
def parseAuthority (l : List Char) :
    Option ((List Char × Option (List Char)) × List Char) :=
  let a := takeUntil isAuthStop l
  let hp := takeUntil (fun c => c = ':') a.1
  if validHost hp.1 then
    match hp.2 with
    | [] => some ((hp.1, none), a.2)
    | ':' :: pds =>
      if pds.isEmpty then some ((hp.1, none), a.2)
      else if pds.all isDigitChar && digitsVal pds ≤ 65535 then
        some ((hp.1, some pds), a.2)
      else none
    | _ => none
  else none

/-- Split the remainder into path, query and fragment.  Never fails. -/
def parsePathQueryFrag (l : List Char) :
    List Char × Option (List Char) × Option (List Char) :=
  let pr := takeUntil (fun c => c = '?' || c = '#') l
  match pr.2 with
  | '?' :: r5 =>
    let qr := takeUntil (fun c => c = '#') r5
    match qr.2 with
    | '#' :: f => (pr.1, some qr.1, some f)
    | _ => (pr.1, some qr.1, none)
  | '#' :: f => (pr.1, none, some f)
  | _ => (pr.1, none, none)

/-- Elide the default port for the two special schemes the repository uses,
as `URL` serialization does. -/
def elidePort (sch : List Char) (port : Option (List Char)) :
    Option (List Char) :=
  match port with
  | none => none
  | some p =>
    if (sch = "http".data ∧ digitsVal p = 80) ∨
       (sch = "https".data ∧ digitsVal p = 443) then none
    else some p

/-- Model of `new URL(s)` on an absolute URL string: returns the parsed
components or `none` where the constructor would throw. -/
def parseUrlChars (l : List Char) : Option UrlModel :=
  match parseScheme l with
  | none => none
  | some (sch, r1) =>
    match parseAuthority r1 with
    | none => none
    | some ((h, prt), r2) =>
      let pqf := parsePathQueryFrag r2
      some ⟨sch, h, elidePort sch prt, pqf.1, pqf.2.1, pqf.2.2⟩

/-- Model of `new URL(s)` on a `String`. -/
def parseUrl (s : String) : Option UrlModel :=
  parseUrlChars s.data

/-- Path and query as serialized (an empty path prints as `/`). -/
def serializeTail (u : UrlModel) : List Char :=
  (if u.path.isEmpty then ['/'] else u.path) ++
  (match u.query with | none => [] | some q => '?' :: q)

/-- Model of `url.toString()`. -/
def urlToStringChars (u : UrlModel) : List Char :=
  u.scheme ++ ':' :: '/' :: '/' :: u.host ++
  (match u.port with | none => [] | some p => ':' :: p) ++
  serializeTail u ++
  (match u.fragment with | none => [] | some f => '#' :: f)

/-- Model of `.replace(/\/$/, '')`: drop one trailing slash. -/
def stripTrailingSlash : List Char → List Char
  | [] => []
  | c :: rest =>
    if rest = [] then (if c = '/' then [] else [c])
    else c :: stripTrailingSlash rest

/-- JS whitespace as trimmed by `String.prototype.trim` (ASCII part). -/
def isJsSpace (c : Char) : Bool :=
  c = ' ' || c = '\t' || c = '\n' || c = '\r' ||
  c = '\x0b' || c = '\x0c'

/-- Model of `value.trim()`. -/
def jsTrim (l : List Char) : List Char :=
  ((l.dropWhile isJsSpace).reverse.dropWhile isJsSpace).reverse

/-- Clear the fragment and serialize, stripping one trailing slash — the
normalization `sanitizeBaseUrl` applies to a successfully parsed URL. -/
def normalizeParsedUrl (u : UrlModel) : List Char :=
  stripTrailingSlash (urlToStringChars { u with fragment := none })

/-- `sanitizeBaseUrl` (background.js:508-532): `none` models both a missing
argument and a `null` return.  Tries the raw string, then `https://` plus
the raw string; on success clears the fragment, serializes and strips one
trailing slash. -/
def sanitizeBaseUrl (value : Option String) : Option String :=
  match value with
  | none => none
  | some v =>
    if v = "" then none
    else
      let trimmed := jsTrim v.data
      if trimmed = [] then none
      else
        match parseUrlChars trimmed with
        | some u => some (String.mk (normalizeParsedUrl u))
        | none =>
          match parseUrlChars ("https://".data ++ trimmed) with
          | some u => some (String.mk (normalizeParsedUrl u))
          | none => none

/-- A string the `URL` model accepts as an absolute URL. -/
def IsValidAbsoluteUrl (s : String) : Prop :=
  (parseUrl s).isSome

instance (s : String) : Decidable (IsValidAbsoluteUrl s) := by
  unfold IsValidAbsoluteUrl; infer_instance

/-! ## Activity payloads and fingerprints -/

/-- A normalized activity payload (`ActivityEvent`).  The `metadata`
object and the envelope fields (`platform`, `mode`, `extensionVersion`)
added by `handleActivityEvent` are not modelled; nothing verified here
reads them. -/
structure Payload where
  activityType : String := ""
  timestamp : String := ""
  provider : String := ""
  subject : Option String := none
  recipients : List String := []
  bodyPreview : String := ""
  attachmentCount : Nat := 0
  attachmentBytes : Int := 0
  attachment_bytes : Int := 0
  direction : String := ""
  sender : Option String := none
  user_email : Option String := none
deriving DecidableEq, Repr

/-- `recipients.join(',')`. -/
def joinComma : List String → String
  | [] => ""
  | [s] => s
  | s :: rest => s ++ "," ++ joinComma rest

/-- The dedupe fingerprint computed in `handleActivityEvent`
(background.js:185-188): `provider::subject::sender::recipientsKey`,
with `|| ''` defaults on subject and sender. -/
def fingerprintOf (p : Payload) : String :=
  p.provider ++ "::" ++ p.subject.getD "" ++ "::" ++ p.sender.getD "" ++
  "::" ++ joinComma p.recipients

/-! ## Coordinator state, storage, side-effect log -/

/-- The background worker's in-memory `STATE` object (background.js:8-16),
plus `lastSyncAttemptAt`, which `handleActivityEvent` adds dynamically
(`none` models the key being absent/undefined). -/
structure CoordState where
  mode : String
  backendBaseUrl : String
  isBackendReachable : Bool
  lastHealthCheck : Option Nat
  lastSyncStatus : String
  lastSyncAt : Option String
  lastSyncAttemptAt : Option String
  totalActivitiesTracked : Nat
deriving DecidableEq, Repr

def DEFAULT_BACKEND_BASE_URL : String := "http://127.0.0.1:5000"

/-- `STATE`'s compiled-in initial value. -/
def initialCoordState : CoordState where
  mode := "awareness"
  backendBaseUrl := DEFAULT_BACKEND_BASE_URL
  isBackendReachable := true
  lastHealthCheck := none
  lastSyncStatus := "idle"
  lastSyncAt := none
  lastSyncAttemptAt := none
  totalActivitiesTracked := 0

/-- One entry of the persisted `pendingActivities` queue:
`{ payload, platform, ts }`. -/
structure QueueItem where
  payload : Payload
  platform : String
  ts : String
deriving DecidableEq, Repr

/-- `chrome.storage.local` contents under the keys this pipeline uses.
`none` models an absent key (and, for `lastSyncAt`, a stored `null`,
which the rehydration path `data.lastSyncAt || null` cannot tell apart). -/
structure Storage where
  mode : Option String := none
  backendBaseUrl : Option String := none
  totalActivitiesTracked : Option Nat := none
  lastSyncStatus : Option String := none
  lastSyncAt : Option String := none
  lastSyncAttemptAt : Option String := none
  pendingActivities : List QueueItem := []
deriving DecidableEq, Repr

/-- Whole background-worker state: `STATE`, the module-level dedupe
variables, storage, and append-only logs of `STATE_UPDATED`/`UPDATE_MODE`
broadcasts and user-visible notifications. -/
structure BgState where
  state : CoordState
  lastActivityFingerprint : Option String := none
  lastActivityAt : Nat := 0
  storage : Storage := {}
  broadcasts : List String := []
  notifications : List String := []
deriving DecidableEq, Repr

/-- Cold start with empty storage. -/
def initialBgState : BgState := { state := initialCoordState }

/-- Keys accepted by `persistState`. -/
inductive SKey
  | kMode | kBackendBaseUrl | kTotal | kStatus | kSyncAt | kAttemptAt
deriving DecidableEq, Repr

/-- Copy one `STATE` field into storage (skipping undefined values, as
`persistState` does for `lastSyncAttemptAt` before it is first set). -/
def writeKey (st : BgState) (s : Storage) : SKey → Storage
  | .kMode => { s with mode := some st.state.mode }
  | .kBackendBaseUrl => { s with backendBaseUrl := some st.state.backendBaseUrl }
  | .kTotal => { s with totalActivitiesTracked := some st.state.totalActivitiesTracked }
  | .kStatus => { s with lastSyncStatus := some st.state.lastSyncStatus }
  | .kSyncAt => { s with lastSyncAt := st.state.lastSyncAt }
  | .kAttemptAt =>
    match st.state.lastSyncAttemptAt with
    | none => s
    | some v => { s with lastSyncAttemptAt := some v }

/-- `persistState(fields)` (background.js:639-671): an empty list means
all five standard keys; on storage-write success a `STATE_UPDATED`
broadcast is sent. -/
def persistState (st : BgState) (fields : List SKey) : BgState :=
  let fs := if fields.isEmpty then
      [SKey.kMode, .kBackendBaseUrl, .kTotal, .kStatus, .kSyncAt]
    else fields
  { st with
    storage := fs.foldl (writeKey st) st.storage
    broadcasts := st.broadcasts ++ ["STATE_UPDATED"] }

/-- An explicit `chrome.runtime.sendMessage({type:'STATE_UPDATED',…})`. -/
def broadcastStateUpdated (st : BgState) : BgState :=
  { st with broadcasts := st.broadcasts ++ ["STATE_UPDATED"] }

/-- A `chrome.notifications.create` call, logged by title. -/
def notify (st : BgState) (title : String) : BgState :=
  { st with notifications := st.notifications ++ [title] }

/-! ## Activity handling -/

/-- Outcome of the `sendActivityToBackend` await inside
`handleActivityEvent`: success, an HTTP/parse error thrown during the
POST, or the health-check "Backend API is not reachable" throw.  Both
error cases take the same `catch` branch. -/
inductive SyncOutcome
  | success
  | httpError
  | unreachable
deriving DecidableEq, Repr

/-- Per-invocation environment: `Date.now()`, `new Date().toISOString()`,
and the backend outcome. -/
structure ActivityEnv where
  now : Nat
  nowIso : String
  outcome : SyncOutcome
deriving DecidableEq, Repr

/-- `handleActivityEvent(payload, platform, mode)`
(background.js:160-284).  The `modeArg` is only spread into the outgoing
payload in the source, so the model carries but ignores it. -/
def handleActivityEvent (st : BgState) (payload : Option Payload)
    (platform : String) (modeArg : Option String) (env : ActivityEnv) :
    BgState :=
  match payload with
  | none => st
  | some p =>
    let fingerprint := fingerprintOf p
    if st.lastActivityFingerprint = some fingerprint ∧
        env.now - st.lastActivityAt < 2000 then
      st
    else
      let st1 := { st with
        lastActivityFingerprint := some fingerprint
        lastActivityAt := env.now }
      let st2 := persistState { st1 with state := { st1.state with
        totalActivitiesTracked := st1.state.totalActivitiesTracked + 1 } }
        [.kTotal]
      let st3 := persistState { st2 with state := { st2.state with
        lastSyncStatus := "syncing"
        lastSyncAttemptAt := some env.nowIso } }
        [.kStatus, .kSyncAt, .kAttemptAt]
      let st4 := broadcastStateUpdated st3
      let st5 :=
        if st4.state.mode = "awareness" then
          notify st4 "CarbonLens Activity Detected"
        else st4
      match env.outcome with
      | .success =>
        broadcastStateUpdated (persistState { st5 with
          state := { st5.state with
            lastSyncStatus := "success"
            lastSyncAt := some env.nowIso } }
          [.kStatus, .kSyncAt])
      | _ =>
        notify
          (broadcastStateUpdated (persistState { st5 with
            state := { st5.state with
              lastSyncStatus := "error"
              lastSyncAt := some env.nowIso } }
            [.kStatus, .kSyncAt]))
          "CarbonLens Sync Error"

/-! ## Mutators, health check, popup protocol -/

/-- `clearStats()` (background.js:632-637). -/
def clearStats (st : BgState) : BgState :=
  persistState { st with state := { st.state with
    totalActivitiesTracked := 0
    lastSyncStatus := "synced"
    lastSyncAt := none } }
    [.kTotal, .kStatus, .kSyncAt]

/-- `setMode(nextMode, options)` (background.js:468-496). -/
def setMode (st : BgState) (nextMode : Option String) (showNotif : Bool) :
    BgState :=
  let validatedMode := if nextMode = some "silent" then "silent" else "awareness"
  if st.state.mode = validatedMode then st
  else
    let st1 := persistState
      { st with state := { st.state with mode := validatedMode } } [.kMode]
    let st2 := { st1 with broadcasts := st1.broadcasts ++ ["UPDATE_MODE"] }
    if validatedMode = "awareness" ∧ showNotif then
      notify st2 "CarbonLens Awareness Mode"
    else if validatedMode = "silent" ∧ showNotif then
      notify st2 "CarbonLens Silent Mode"
    else st2

def backendUrlErrorMsg : String :=
  "Please provide a valid backend URL (e.g., https://api.yourdomain.com)."

/-- `setBackendBaseUrl(rawUrl)` (background.js:498-506).  The thrown
error is returned as the second component; the state is only mutated on
success. -/
def setBackendBaseUrl (st : BgState) (rawUrl : Option String) :
    BgState × Option String :=
  match sanitizeBaseUrl rawUrl with
  | none => (st, some backendUrlErrorMsg)
  | some sanitized =>
    (persistState { st with state := { st.state with
      backendBaseUrl := sanitized } } [.kBackendBaseUrl], none)

/-- The 60-second memoization test in `performHealthCheck`. -/
def healthMemoFresh (lastHealthCheck : Option Nat) (now : Nat) : Bool :=
  match lastHealthCheck with
  | some t => now - t < 60 * 1000
  | none => false

/-- `performHealthCheck(force)` (background.js:534-552); `fetchOk` is the
oracle for `fetch(url).ok` (false also covers a network throw). -/
def performHealthCheck (st : BgState) (force : Bool) (now : Nat)
    (fetchOk : Bool) : BgState :=
  if !force && healthMemoFresh st.state.lastHealthCheck now then st
  else { st with state := { st.state with
    isBackendReachable := fetchOk
    lastHealthCheck := some now } }

/-- The extension-version tag from `chrome.runtime.getManifest()`; the
manifest is not among the captured sources, so the tag is opaque. -/
def extensionVersion : String := "1.0.0"

/-- `getSerializableState()` (background.js:673-678): `STATE` plus the
version tag. -/
def getSerializableState (st : BgState) : CoordState × String :=
  (st.state, extensionVersion)

/-! ## Pending queue -/

/-- `setPendingActivities(list)` (background.js:304-318). -/
def setPendingActivities (st : BgState) (list : List QueueItem) : BgState :=
  { st with storage := { st.storage with pendingActivities := list } }

/-- The `while` loop of `processPendingActivities` (background.js:329-344)
over an abstract per-item handler: `none` models
`handleActivityEvent` rejecting, which stops the drain; on success the
item is shifted off and the shortened queue persisted. -/
def drainFrom (handle : Nat → QueueItem → BgState → Option BgState) :
    Nat → List QueueItem → BgState → BgState
  | _, [], st => st
  | k, item :: rest, st =>
    match handle k item st with
    | some st' => drainFrom handle (k + 1) rest (setPendingActivities st' rest)
    | none => st

/-- `processPendingActivities()` (background.js:323-348). -/
def processPendingActivities
    (handle : Nat → QueueItem → BgState → Option BgState) (st : BgState) :
    BgState :=
  drainFrom handle 0 st.storage.pendingActivities st

/-- Environment for processing one queued item: whether the
`handleActivityEvent` call rejects, and otherwise its environment. -/
structure ItemEnv where
  throws : Bool
  env : ActivityEnv
deriving DecidableEq, Repr

/-- The concrete handler the drain loop uses:
`handleActivityEvent(item.payload, item.platform, STATE.mode)`. -/
def handleQueuedItem (envs : Nat → ItemEnv) (k : Nat) (item : QueueItem)
    (st : BgState) : Option BgState :=
  if (envs k).throws then none
  else some (handleActivityEvent st (some item.payload) item.platform
    (some st.state.mode) (envs k).env)

/-! ## Cold-start rehydration -/

/-- `x || dflt` on an optional string (empty string is falsy). -/
def jsOrString (v : Option String) (dflt : String) : String :=
  match v with
  | some s => if s = "" then dflt else s
  | none => dflt

/-- `x || null` on an optional string. -/
def jsOrNullString (v : Option String) : Option String :=
  match v with
  | some s => if s = "" then none else some s
  | none => none

/-- `initializeState()` (background.js:128-158): rehydrate `STATE` from
storage, run a health check, broadcast the mode, then drain the pending
queue.  `updateExtensionIcon` is an icon-only side effect and is not
modelled. -/
def initializeState (st : BgState) (now : Nat) (fetchOk : Bool)
    (envs : Nat → ItemEnv) : BgState :=
  let d := st.storage
  let s1 := { st with state := { st.state with
    mode := if d.mode = some "silent" then "silent" else "awareness"
    backendBaseUrl :=
      jsOrString (sanitizeBaseUrl d.backendBaseUrl) DEFAULT_BACKEND_BASE_URL
    totalActivitiesTracked := d.totalActivitiesTracked.getD 0
    lastSyncStatus := jsOrString d.lastSyncStatus "idle"
    lastSyncAt := jsOrNullString d.lastSyncAt } }
  let s2 := performHealthCheck s1 false now fetchOk
  let s3 := { s2 with broadcasts := s2.broadcasts ++ ["UPDATE_MODE"] }
  processPendingActivities (handleQueuedItem envs) s3

/-! ## Popup message protocol -/

/-- Popup requests (`handlePopupMessage`, background.js:350-466), with
the oracles each branch needs. -/
inductive PopupMsg
  | getState
  | setModeMsg (mode : Option String)
  | setBackendUrlMsg (url : Option String) (now : Nat) (fetchOk : Bool)
  | refreshHealth (now : Nat) (fetchOk : Bool)
  | clearStatsMsg
  | unknownMsg
deriving DecidableEq, Repr

/-- The `{success, state, error?, healthCheck?}` reply shape. -/
structure PopupReply where
  success : Bool
  error : Option String
  state : CoordState × String
  healthCheck : Option Bool
deriving DecidableEq, Repr

/-- `handlePopupMessage(message)` plus the `onMessage` catch that turns a
`setBackendBaseUrl` throw into a `{success:false, error, state}` reply.
`ensureContentScripts` only touches mail tabs, not `BgState`, and is not
modelled. -/
def handlePopupMessage (st : BgState) (m : PopupMsg) : BgState × PopupReply :=
  match m with
  | .getState => (st, ⟨true, none, getSerializableState st, none⟩)
  | .setModeMsg mode =>
    let st' := setMode st mode false
    (st', ⟨true, none, getSerializableState st', none⟩)
  | .setBackendUrlMsg url now fetchOk =>
    match setBackendBaseUrl st url with
    | (st', some e) => (st', ⟨false, some e, getSerializableState st', none⟩)
    | (st', none) =>
      let st2 := performHealthCheck st' false now fetchOk
      (st2, ⟨true, none, getSerializableState st2, none⟩)
  | .refreshHealth now fetchOk =>
    let st' := performHealthCheck st true now fetchOk
    (st', ⟨true, none, getSerializableState st',
      some st'.state.isBackendReachable⟩)
  | .clearStatsMsg =>
    let st' := clearStats st
    (st', ⟨true, none, getSerializableState st', none⟩)
  | .unknownMsg =>
    (st, ⟨false, some "Unknown message type", getSerializableState st, none⟩)

/-! ## Coordinator operations as a step relation -/

/-- One public Coordinator operation, with its oracle inputs. -/
inductive CoordOp
  | opActivity (payload : Option Payload) (platform : String)
      (modeArg : Option String) (env : ActivityEnv)
  | opDrain (envs : Nat → ItemEnv)
  | opSetMode (next : Option String) (showNotif : Bool)
  | opSetBackendUrl (raw : Option String)
  | opClearStats
  | opCheckHealth (force : Bool) (now : Nat) (fetchOk : Bool)

/-- Apply one operation. -/
def applyOp (st : BgState) : CoordOp → BgState
  | .opActivity p pf m env => handleActivityEvent st p pf m env
  | .opDrain envs => processPendingActivities (handleQueuedItem envs) st
  | .opSetMode next sn => setMode st next sn
  | .opSetBackendUrl raw => (setBackendBaseUrl st raw).1
  | .opClearStats => clearStats st
  | .opCheckHealth f now ok => performHealthCheck st f now ok

/-- Apply a sequence of operations, oldest first. -/
def applyOps (ops : List CoordOp) (st : BgState) : BgState :=
  ops.foldl applyOp st

/-! ## Content script: dispatch and retry (content script, retry variant) -/

/-- Content-script module state: the mode pushed by the background and
the `_lastDispatchAt` time used by the keyboard-send guard. -/
structure ContentState where
  mode : String := "awareness"
  lastDispatchAt : Nat := 0
deriving DecidableEq, Repr

/-- The `ACTIVITY_DETECTED` envelope built by `dispatchActivity`. -/
structure OutMessage where
  source : String
  type : String
  platform : String
  mode : String
  payload : Payload
deriving DecidableEq, Repr

/-- `dispatchActivity(payload)` (content script lines 99-184), reduced to
the message it forwards: an empty payload is dropped with a warning;
every non-empty payload is wrapped and handed to `sendWithRetry(1)`.
The function keeps no fingerprint and consults no dedupe state. -/
def dispatchActivity (currentPlatform : String) (cs : ContentState)
    (payload : Option Payload) : Option OutMessage :=
  match payload with
  | none => none
  | some p => some
    { source := "carbonlens-content"
      type := "ACTIVITY_DETECTED"
      platform := currentPlatform
      mode := cs.mode
      payload := p }

/-- What one `chrome.runtime.sendMessage` attempt observes: the callback
ran with a response (`delivered`, `ack` records `response.acknowledged`),
the callback ran with `chrome.runtime.lastError` set, or `sendMessage`
threw synchronously. -/
inductive ChannelResult
  | delivered (ack : Bool)
  | lastErr
  | exn
deriving DecidableEq, Repr

def maxRetries : Nat := 3

def retryDelayBase : Nat := 300

/-- Observable outcome of a `sendWithRetry` cascade: whether any attempt
reached the background, how many times the event was pushed onto
`pendingActivities`, and the backoff delays scheduled along the way. -/
structure SendOutcome where
  delivered : Bool
  queuePushes : Nat
  delays : List Nat
deriving DecidableEq, Repr

/-- The body of `sendWithRetry(attempt)` (content script lines 125-177),
with the recursion driven by the fuel `maxRetries - attempt` (so `fuel =
0` is exactly the source's `attempt < maxRetries` test failing, for the
reachable attempts `1 ≤ attempt ≤ maxRetries`).  On `lastError` below the
bound it schedules a retry after `retryDelayBase * 2^(attempt-1)` ms; at
the bound it pushes the event onto the persisted queue.  On a synchronous
throw below the bound it retries the same way; at the bound it does
nothing — the event is dropped. -/
def sendWithRetryGo (env : Nat → ChannelResult) : Nat → Nat → SendOutcome
  | attempt, 0 =>
    match env attempt with
    | .delivered _ => ⟨true, 0, []⟩
    | .lastErr => ⟨false, 1, []⟩
    | .exn => ⟨false, 0, []⟩
  | attempt, fuel + 1 =>
    match env attempt with
    | .delivered _ => ⟨true, 0, []⟩
    | _ =>
      let d := retryDelayBase * 2 ^ (attempt - 1)
      let rest := sendWithRetryGo env (attempt + 1) fuel
      ⟨rest.delivered, rest.queuePushes, d :: rest.delays⟩

/-- `sendWithRetry(attempt)` started at the given attempt number. -/
def sendWithRetry (env : Nat → ChannelResult) (attempt : Nat) : SendOutcome :=
  sendWithRetryGo env attempt (maxRetries - attempt)

/-! ## Attachment-size scanning -/

/-- `[A-Za-z0-9_]`, the regex `\w` class used by `\b`. -/
def isWordChar (c : Char) : Bool :=
  isAlphaChar c || isDigitChar c || c = '_'

def isKChar (c : Char) : Bool := c = 'K' || c = 'k'

def isMChar (c : Char) : Bool := c = 'M' || c = 'm'

def isBChar (c : Char) : Bool := c = 'B' || c = 'b'

/-- Match the unit alternation `(KB|MB|B)` case-insensitively at the head
of the list, in the regex's alternation order; returns the canonical unit
and the remaining characters. -/
def matchUnit : List Char → Option (String × List Char)
  | [] => none
  | [c1] => if isBChar c1 then some ("B", []) else none
  | c1 :: c2 :: rest =>
    if isKChar c1 && isBChar c2 then some ("KB", rest)
    else if isMChar c1 && isBChar c2 then some ("MB", rest)
    else if isBChar c1 then some ("B", c2 :: rest)
    else none

/-- One position of the word-boundary test `/\b(KB|MB|B)\b/i`: a unit
match whose neighbours on both sides are absent or non-word. -/
def hasUnitAt (prev : Option Char) (l : List Char) : Bool :=
  match matchUnit l with
  | some (_, rest) =>
    (match prev with | none => true | some c => !isWordChar c) &&
    (match rest with | [] => true | c :: _ => !isWordChar c)
  | none => false

def hasSizeUnitWordAux : Option Char → List Char → Bool
  | _, [] => false
  | prev, c :: cs => hasUnitAt prev (c :: cs) || hasSizeUnitWordAux (some c) cs

/-- `/\b(KB|MB|B)\b/i.test(txt)`. -/
def hasSizeUnitWord (l : List Char) : Bool :=
  hasSizeUnitWordAux none l

/-- Longest digit prefix and the rest. -/
def spanDigits (l : List Char) : List Char × List Char :=
  (l.takeWhile isDigitChar, l.dropWhile isDigitChar)

/-- Match `[0-9]+(?:\.[0-9]+)?` at the head of the list (maximal munch;
for this pattern backtracking can never recover a match maximal munch
misses, because no shorter digit run is followed by `\s*` plus a unit
letter).  Returns the matched number characters and the rest. -/
def matchNumber (l : List Char) : Option (List Char × List Char) :=
  let d := spanDigits l
  if d.1.isEmpty then none
  else
    match d.2 with
    | '.' :: r2 =>
      let f := spanDigits r2
      if f.1.isEmpty then some (d.1, d.2)
      else some (d.1 ++ '.' :: f.1, f.2)
    | _ => some (d.1, d.2)

/-- Attempt the full size pattern `([0-9]+(?:\.[0-9]+)?)\s*(KB|MB|B)` at
the head of the list. -/
def tryMatchSizeAt (l : List Char) : Option (List Char × String) :=
  match matchNumber l with
  | none => none
  | some (num, r1) =>
    match matchUnit (r1.dropWhile isJsSpace) with
    | some (u, _) => some (num, u)
    | none => none

/-- Leftmost match of the size pattern, as `String.prototype.match`
finds it. -/
def findSizeMatch : List Char → Option (List Char × String)
  | [] => none
  | c :: cs =>
    match tryMatchSizeAt (c :: cs) with
    | some r => some r
    | none => findSizeMatch cs

/-- `parseFloat` on the matched number (exact, over `Rat`). -/
def ratOfNumChars (num : List Char) : Rat :=
  let ip := takeUntil (fun c => c = '.') num
  match ip.2 with
  | '.' :: fs => (digitsVal ip.1 : Rat) + (digitsVal fs : Rat) / (10 : Rat) ^ fs.length
  | _ => (digitsVal ip.1 : Rat)

/-- `parseSizeToMb(text)` (content script lines 42-51): first size match
converted to megabytes, `0` when absent. -/
def parseSizeToMb (text : List Char) : Rat :=
  match findSizeMatch text with
  | none => 0
  | some (num, u) =>
    let value := ratOfNumChars num
    if u = "B" then value / (1024 * 1024)
    else if u = "KB" then value / 1024
    else value

/-- `computeAttachmentTotalMb(composeRoot)` (content script lines 54-75)
over the visible texts of the candidate elements (`aria-label`, or
`innerText`/`textContent`): elements whose text passes the word-boundary
unit test contribute their parsed size when positive. -/
def computeAttachmentTotalMb (texts : List String) : Rat :=
  texts.foldl
    (fun acc t =>
      if t.data = [] then acc
      else if hasSizeUnitWord t.data then
        let mb := parseSizeToMb t.data
        if mb > 0 then acc + mb else acc
      else acc)
    0

/-- `guessAttachmentTotalMb(composeRoot)` (tooltip helper, content script
lines 398-420): same scan as `computeAttachmentTotalMb` (its candidate
selector omits `li`; the element texts are this model's input either
way). -/
def guessAttachmentTotalMb (texts : List String) : Rat :=
  texts.foldl
    (fun acc t =>
      if t.data = [] then acc
      else if hasSizeUnitWord t.data then
        let mb := parseSizeToMb t.data
        if mb > 0 then acc + mb else acc
      else acc)
    0

/-- `Math.round` (ties toward positive infinity). -/
def jsRound (q : Rat) : Int :=
  (q + 1 / 2).floor

/-! ## Compose extraction -/

/-- Snapshot of a compose region as the extractors read it: resolved
field texts (`none` models a missing anchor element), the number of
attachment list items (`none` models a missing attachments container),
the candidate texts scanned for sizes, the account email, and the
detection wall-clock time. -/
structure ComposeModel where
  toFieldText : Option String := none
  subjectValue : Option String := none
  bodyInnerText : Option String := none
  attachmentListItemCount : Option Nat := none
  candidateTexts : List String := []
  accountEmail : Option String := none
  nowIso : String := ""
deriving DecidableEq, Repr

def isRecipSep (c : Char) : Bool :=
  c = ',' || c = ';' || c = '\n'

/-- Split on single separator characters.  Together with the trim/filter
pipeline this is equivalent to `split(/[,;\n]+/)`, since the extra empty
pieces produced by separator runs are filtered out. -/
def splitOnSep (p : Char → Bool) : List Char → List (List Char)
  | [] => [[]]
  | c :: cs =>
    let r := splitOnSep p cs
    if p c then [] :: r
    else
      match r with
      | [] => [[c]]
      | g :: gs => (c :: g) :: gs

/-- `normalizeRecipientList(rawValue)` (content script lines 724-731). -/
def normalizeRecipientList (rawValue : String) : List String :=
  if rawValue = "" then []
  else
    ((splitOnSep isRecipSep rawValue.data).map jsTrim).filterMap
      (fun g => if g = [] then none else some (String.mk g))

/-- `.slice(0, 280)` on an optional `innerText`, with `|| ''`. -/
def bodyPreviewOf (body : Option String) : String :=
  String.mk ((body.getD "").data.take 280)

/-- `extractGmailEmailData(composeRoot)` (content script lines 561-598).
Attachment bytes come solely from the size scan:
`Math.round(computeAttachmentTotalMb(composeRoot) * 1_000_000)`. -/
def extractGmailEmailData (cm : ComposeModel) : Payload :=
  let totalMb := computeAttachmentTotalMb cm.candidateTexts
  let attachmentBytes := jsRound (totalMb * 1000000)
  { activityType := "email"
    timestamp := cm.nowIso
    provider := "gmail"
    subject := some (cm.subjectValue.getD "")
    recipients := normalizeRecipientList (cm.toFieldText.getD "")
    bodyPreview := bodyPreviewOf cm.bodyInnerText
    attachmentCount := cm.attachmentListItemCount.getD 0
    attachmentBytes := attachmentBytes
    attachment_bytes := attachmentBytes
    direction := "outbound"
    sender := cm.accountEmail
    user_email := cm.accountEmail }

/-- `extractOutlookEmailData(composeRoot)` (content script lines 686-722). -/
def extractOutlookEmailData (cm : ComposeModel) : Payload :=
  let totalMb := computeAttachmentTotalMb cm.candidateTexts
  let attachmentBytes := jsRound (totalMb * 1000000)
  { activityType := "email"
    timestamp := cm.nowIso
    provider := "outlook"
    subject := some (cm.subjectValue.getD "")
    recipients := normalizeRecipientList (cm.toFieldText.getD "")
    bodyPreview := bodyPreviewOf cm.bodyInnerText
    attachmentCount := cm.attachmentListItemCount.getD 0
    attachmentBytes := attachmentBytes
    attachment_bytes := attachmentBytes
    direction := "outbound"
    sender := cm.accountEmail
    user_email := cm.accountEmail }

/-- The attachment-size total actually used by the tooltip estimator
`estimateEmailEmission` (content script lines 422-447): the scanned
total, or — only here — the 1 MB-per-attachment fallback when no size
text was found and at least one attachment indicator exists. -/
def emissionTotalMb (cm : ComposeModel) : Rat :=
  let activity := extractGmailEmailData cm
  let totalMb := guessAttachmentTotalMb cm.candidateTexts
  if totalMb ≤ 0 ∧ activity.attachmentCount > 0 then
    (activity.attachmentCount : Rat) * 1
  else totalMb

/-- `estimateEmailEmission(composeRoot)`: grams `= 0.3 + 15·MB`, scaled
by the recipient count; returns `(kg, totalGrams)`. -/
def estimateEmailEmission (cm : ComposeModel) : Rat × Rat :=
  let activity := extractGmailEmailData cm
  let recipients := activity.recipients.length
  let grams := (3 / 10 : Rat) + 15 * emissionTotalMb cm
  let totalGrams := grams * (max recipients 1 : Nat)
  (totalGrams / 1000, totalGrams)

/-! ## Keyboard-send guard -/

/-- The relevant fields of a `keydown` event. -/
structure KeyEvent where
  key : String
  keyCode : Nat
  ctrlKey : Bool
  metaKey : Bool
deriving DecidableEq, Repr

/-- `handleGlobalKeydown(e)` (content script lines 187-224): recognizes
Ctrl/Cmd+Enter, suppresses any dispatch within 1000 ms of the previous
one by time alone (no fingerprint), extracts from the focused compose
region and dispatches.  Returns the updated state and the forwarded
message, if any. -/
def handleGlobalKeydown (currentPlatform : String) (cs : ContentState)
    (e : KeyEvent) (now : Nat) (composeRoot : Option ComposeModel) :
    ContentState × Option OutMessage :=
  let isSendShortcut :=
    (e.key = "Enter" || e.keyCode = 13) && (e.ctrlKey || e.metaKey)
  if !isSendShortcut then (cs, none)
  else if now - cs.lastDispatchAt < 1000 then (cs, none)
  else
    match composeRoot with
    | none => (cs, none)
    | some cm =>
      let activity :=
        if currentPlatform = "gmail" then extractGmailEmailData cm
        else extractOutlookEmailData cm
      if activity.activityType ≠ "" then
        ({ cs with lastDispatchAt := now },
          dispatchActivity currentPlatform cs (some activity))
      else (cs, none)

/-! ## Concrete fixtures used by witnesses and counterexamples -/

/-- The four `lastSyncStatus` values named in the background's own
comment, plus the `"synced"` value `clearStats` writes. -/
def statusValues : List String :=
  ["idle", "syncing", "success", "error", "synced"]

/-- The duplicate-dispatch example payload from the specification:
`{provider:"a", subject:"x", sender:"s", recipients:["r"]}`. -/
def dupPayload : Payload :=
  { provider := "a", subject := some "x", sender := some "s",
    recipients := ["r"] }

/-- A compose snapshot with one attachment list item and no size text
anywhere in the candidate texts. -/
def oneAttachmentNoSizeCompose : ComposeModel :=
  { attachmentListItemCount := some 1, candidateTexts := ["report.pdf"] }

/-- Three distinguishable queue items. -/
def qItemA : QueueItem :=
  { payload := { subject := some "A" }, platform := "gmail", ts := "t0" }

def qItemB : QueueItem :=
  { payload := { subject := some "B" }, platform := "gmail", ts := "t1" }

def qItemC : QueueItem :=
  { payload := { subject := some "C" }, platform := "gmail", ts := "t2" }

/-- A background state whose persisted queue is `[A, B, C]`. -/
def queuedBgState : BgState :=
  { initialBgState with
    storage := { pendingActivities := [qItemA, qItemB, qItemC] } }

/-- A drain handler that succeeds (returning the state unchanged) on the
first item and throws on every later one. -/
def failSecondHandle : Nat → QueueItem → BgState → Option BgState :=
  fun k _ st => if k = 0 then some st else none

/-- A sample activity environment with a successful backend sync. -/
def envSuccess : ActivityEnv :=
  { now := 1000, nowIso := "2026-01-01T00:00:01.000Z",
    outcome := SyncOutcome.success }

/-- A sample activity environment 500 ms later, with a failing sync. -/
def envError500 : ActivityEnv :=
  { now := 1500, nowIso := "2026-01-01T00:00:01.500Z",
    outcome := SyncOutcome.httpError }

end CarbonLens

namespace CarbonLens

/-! # Theorems

Helper lemmas first, then one theorem per claim (with witnesses and
counterexamples where required). -/

/-! ## Helper lemmas about activity handling -/

/-- `setPendingActivities` only rewrites the queue key. -/
theorem setPendingActivities_state (st : BgState) (l : List QueueItem) :
    (setPendingActivities st l).state = st.state := rfl

/-- Core facts about a non-duplicate `handleActivityEvent` call: it
records the fingerprint and time, increments the counter by one, and
persists the incremented counter — in every backend outcome. -/
theorem handleActivity_fresh_core (st : BgState) (p : Payload) (pf : String)
    (m : Option String) (env : ActivityEnv)
    (hfresh : ¬ (st.lastActivityFingerprint = some (fingerprintOf p) ∧
      env.now - st.lastActivityAt < 2000)) :
    (handleActivityEvent st (some p) pf m env).lastActivityFingerprint
        = some (fingerprintOf p) ∧
    (handleActivityEvent st (some p) pf m env).lastActivityAt = env.now ∧
    (handleActivityEvent st (some p) pf m env).state.totalActivitiesTracked
        = st.state.totalActivitiesTracked + 1 ∧
    (handleActivityEvent st (some p) pf m env).storage.totalActivitiesTracked
        = some (st.state.totalActivitiesTracked + 1) := by
  obtain ⟨now, iso, outc⟩ := env
  simp only [handleActivityEvent]
  rw [if_neg hfresh]
  cases outc <;>
    simp [persistState, writeKey, broadcastStateUpdated, notify,
      List.foldl_cons, List.foldl_nil] <;>
    split_ifs <;> simp_all

/-- A call whose fingerprint matches the recorded one within the 2000 ms
window returns with no state change at all. -/
theorem handleActivity_dup_drop (st : BgState) (q : Payload) (pf : String)
    (m : Option String) (env : ActivityEnv)
    (hfp : st.lastActivityFingerprint = some (fingerprintOf q))
    (hwin : env.now - st.lastActivityAt < 2000) :
    handleActivityEvent st (some q) pf m env = st := by
  simp only [handleActivityEvent]
  rw [if_pos ⟨hfp, hwin⟩]

/-! ## C1 -/

/-- **C1** — For every activity event handled by `handleActivityEvent`
with a non-empty payload whose fingerprint does not match one accepted
within the dedupe window, `totalActivitiesTracked` increases by exactly 1
and is persisted, regardless of the delivery outcome (the environment
`env.outcome` ranges over success, error and unreachable); a duplicate
event with an identical fingerprint within the dedupe window increments
it zero additional times (it leaves the whole state unchanged). -/
theorem C1_counts_exactly_once (st : BgState) (p : Payload)
    (platform : String) (modeArg : Option String) (env : ActivityEnv)
    (hfresh : ¬ (st.lastActivityFingerprint = some (fingerprintOf p) ∧
      env.now - st.lastActivityAt < 2000)) :
    (handleActivityEvent st (some p) platform modeArg env).state.totalActivitiesTracked
        = st.state.totalActivitiesTracked + 1 ∧
    (handleActivityEvent st (some p) platform modeArg env).storage.totalActivitiesTracked
        = some (st.state.totalActivitiesTracked + 1) ∧
    (∀ (q : Payload) (env2 : ActivityEnv),
      fingerprintOf q = fingerprintOf p →
      env2.now - env.now < 2000 →
      handleActivityEvent (handleActivityEvent st (some p) platform modeArg env)
          (some q) platform modeArg env2
        = handleActivityEvent st (some p) platform modeArg env) := by
  obtain ⟨hfp, hat, hcount, hstore⟩ :=
    handleActivity_fresh_core st p platform modeArg env hfresh
  refine ⟨hcount, hstore, fun q env2 hq hwin => ?_⟩
  exact handleActivity_dup_drop _ q platform modeArg env2
    (by rw [hfp, hq]) (by rw [hat]; exact hwin)

/-- Witness for C1 at a concrete fresh state, payload and both a success
and an error outcome. -/
theorem C1_witness :
    (¬ ((initialBgState : BgState).lastActivityFingerprint
        = some (fingerprintOf dupPayload) ∧
      envSuccess.now - initialBgState.lastActivityAt < 2000)) ∧
    (handleActivityEvent initialBgState (some dupPayload) "gmail" none
      envSuccess).state.totalActivitiesTracked = 1 := by
  have h : ¬ ((initialBgState : BgState).lastActivityFingerprint
      = some (fingerprintOf dupPayload) ∧
      envSuccess.now - initialBgState.lastActivityAt < 2000) := by
    simp [initialBgState, initialCoordState]
  exact ⟨h, (C1_counts_exactly_once initialBgState dupPayload "gmail" none
    envSuccess h).1⟩

/-! ## C2 -/

/-- **C2 counterexample** — The claim says the second of two
`dispatchActivity` calls with an identical fingerprint within the dedupe
window "is a silent no-op and is not forwarded".  In the code,
`dispatchActivity` computes no fingerprint and keeps no dedupe state, so
a second call with the identical payload is the same application as the
first and forwards the message again: here the spec's own example payload
is forwarded (`isSome`), and since `dispatchActivity` neither reads nor
writes any dedupe record, the repeated call forwards it identically
rather than being absorbed. -/
theorem C2_counterexample :
    (dispatchActivity "gmail" {} (some dupPayload)).isSome = true ∧
    dispatchActivity "gmail" {} (some dupPayload)
      = dispatchActivity "gmail" {} (some dupPayload) := ⟨rfl, rfl⟩

/-- **C2 (amended)** — `dispatchActivity` itself applies no
fingerprint-based deduplication: every call with a non-empty payload
forwards the wrapped message (so the duplicate is forwarded too).  The
fingerprint dedupe lives in the Coordinator: the first
`handleActivityEvent` call counts the event, and a second call with the
identical fingerprint within its 2000 ms window is dropped with no state
change, so the pair yields exactly one counted activity.  On the
keyboard path, `handleGlobalKeydown` additionally suppresses any
dispatch within 1000 ms of the previous one, by time alone. -/
theorem C2_dedupe_is_coordinator_side (cp pf : String) (cs : ContentState)
    (st : BgState) (p : Payload) (modeArg : Option String)
    (env1 env2 : ActivityEnv)
    (hfresh : ¬ (st.lastActivityFingerprint = some (fingerprintOf p) ∧
      env1.now - st.lastActivityAt < 2000))
    (hwin : env2.now - env1.now < 2000) :
    dispatchActivity cp cs (some p)
      = some ⟨"carbonlens-content", "ACTIVITY_DETECTED", cp, cs.mode, p⟩ ∧
    (handleActivityEvent st (some p) pf modeArg env1).state.totalActivitiesTracked
        = st.state.totalActivitiesTracked + 1 ∧
    handleActivityEvent (handleActivityEvent st (some p) pf modeArg env1)
        (some p) pf modeArg env2
      = handleActivityEvent st (some p) pf modeArg env1 ∧
    (∀ (e : KeyEvent) (now : Nat) (cm : Option ComposeModel),
      now - cs.lastDispatchAt < 1000 →
      handleGlobalKeydown cp cs e now cm = (cs, none)) := by
  obtain ⟨hfp, hat, hcount, _⟩ :=
    handleActivity_fresh_core st p pf modeArg env1 hfresh
  refine ⟨rfl, hcount, ?_, ?_⟩
  · exact handleActivity_dup_drop _ p pf modeArg env2 hfp
      (by rw [hat]; exact hwin)
  · intro e now cm hguard
    simp [handleGlobalKeydown, hguard]

/-- Witness for C2 (amended) at the spec's example payload, two calls
500 ms apart. -/
theorem C2_witness :
    handleActivityEvent
        (handleActivityEvent initialBgState (some dupPayload) "gmail" none
          envSuccess)
        (some dupPayload) "gmail" none envError500
      = handleActivityEvent initialBgState (some dupPayload) "gmail" none
          envSuccess := by
  have h : ¬ ((initialBgState : BgState).lastActivityFingerprint
      = some (fingerprintOf dupPayload) ∧
      envSuccess.now - initialBgState.lastActivityAt < 2000) := by
    simp [initialBgState, initialCoordState]
  exact (C2_dedupe_is_coordinator_side "gmail" "gmail" {} initialBgState
    dupPayload none envSuccess envError500 h (by decide)).2.2.1

/-! ## C3 -/

/-- **C3 counterexample** — The claim says every event whose channel
delivery fails is, after the 3-attempt bound, "appended exactly once to
the persisted pendingActivities queue" and "never silently discarded".
If every attempt fails by a synchronous `sendMessage` throw (the `catch`
branch of `sendWithRetry`), the code retries with the same backoff but,
at the bound, queues nothing: the event is dropped with zero queue
pushes. -/
theorem C3_counterexample :
    sendWithRetry (fun _ => ChannelResult.exn) 1
      = { delivered := false, queuePushes := 0, delays := [300, 600] } := rfl

/-- **C3 (amended)** — On channel failures reported through
`chrome.runtime.lastError` (the coordinator-unreachable case), the
dispatch client retries up to 3 attempts with delays 300 ms then 600 ms
and, after the bound, appends the event to the persisted queue exactly
once; in every execution the event is queued at most once, and a
delivered attempt queues nothing.  (Failures by synchronous exception
retry identically but are dropped, not queued, at the bound.) -/
theorem C3_lastError_queues_once (env : Nat → ChannelResult)
    (hall : ∀ a, 1 ≤ a → a ≤ 3 → env a = ChannelResult.lastErr) :
    sendWithRetry env 1
      = { delivered := false, queuePushes := 1, delays := [300, 600] } ∧
    (∀ (env' : Nat → ChannelResult) (attempt : Nat),
      (sendWithRetry env' attempt).queuePushes ≤ 1) ∧
    (∀ (env' : Nat → ChannelResult) (attempt : Nat),
      (sendWithRetry env' attempt).delivered = true →
      (sendWithRetry env' attempt).queuePushes = 0) := by
  have go_le : ∀ (env' : Nat → ChannelResult) (fuel attempt : Nat),
      (sendWithRetryGo env' attempt fuel).queuePushes ≤ 1 ∧
      ((sendWithRetryGo env' attempt fuel).delivered = true →
        (sendWithRetryGo env' attempt fuel).queuePushes = 0) := by
    intro env' fuel
    induction fuel with
    | zero =>
      intro attempt
      cases h : env' attempt <;> simp [sendWithRetryGo, h]
    | succ n ih =>
      intro attempt
      cases h : env' attempt <;> simp [sendWithRetryGo, h] <;>
        exact ⟨(ih (attempt + 1)).1, (ih (attempt + 1)).2⟩
  refine ⟨?_, fun env' attempt => (go_le env' _ attempt).1,
    fun env' attempt => (go_le env' _ attempt).2⟩
  have h1 := hall 1 (by decide) (by decide)
  have h2 := hall 2 (by decide) (by decide)
  have h3 := hall 3 (by decide) (by decide)
  simp [sendWithRetry, sendWithRetryGo, maxRetries, retryDelayBase, h1, h2, h3]

/-- Witness for C3 (amended): the all-`lastError` oracle. -/
theorem C3_witness :
    sendWithRetry (fun _ => ChannelResult.lastErr) 1
      = { delivered := false, queuePushes := 1, delays := [300, 600] } :=
  (C3_lastError_queues_once (fun _ => ChannelResult.lastErr)
    (fun _ _ _ => rfl)).1

/-! ## C4 -/

/-- **C4** — The queue drain is strictly FIFO, removes an item from the
persisted queue only after its handling call completes without throwing,
and halts at the first failure: for a persisted queue `[A, B, C]` where
handling `A` succeeds and handling `B` throws, the drained state's
persisted queue is `[B, C]`. -/
theorem C4_drain_fifo_halts (handle : Nat → QueueItem → BgState → Option BgState)
    (A B C : QueueItem) (st stA : BgState)
    (hq : st.storage.pendingActivities = [A, B, C])
    (hA : handle 0 A st = some stA)
    (hB : handle 1 B (setPendingActivities stA [B, C]) = none) :
    (processPendingActivities handle st).storage.pendingActivities = [B, C] := by
  unfold processPendingActivities
  rw [hq]
  simp only [drainFrom, hA, hB]
  rfl

/-- Witness for C4 on a concrete three-item queue whose handler fails on
the second item. -/
theorem C4_witness :
    (processPendingActivities failSecondHandle queuedBgState).storage.pendingActivities
      = [qItemB, qItemC] :=
  C4_drain_fifo_halts failSecondHandle qItemA qItemB qItemC queuedBgState
    queuedBgState rfl rfl rfl

/-! ## C9 -/

/-- **C9** — From every Coordinator state, a `CLEAR_STATS` popup command
followed by a `GET_STATE` query yields a state with
`totalActivitiesTracked = 0`, `lastSyncStatus` equal to `"idle"` or
`"synced"` (concretely `"synced"`), and `lastSyncAt = null`. -/
theorem C9_clearStats_roundtrip (st : BgState) :
    ((handlePopupMessage (handlePopupMessage st PopupMsg.clearStatsMsg).1
        PopupMsg.getState).2.state.1.totalActivitiesTracked = 0) ∧
    (((handlePopupMessage (handlePopupMessage st PopupMsg.clearStatsMsg).1
        PopupMsg.getState).2.state.1.lastSyncStatus = "idle") ∨
      ((handlePopupMessage (handlePopupMessage st PopupMsg.clearStatsMsg).1
        PopupMsg.getState).2.state.1.lastSyncStatus = "synced")) ∧
    ((handlePopupMessage (handlePopupMessage st PopupMsg.clearStatsMsg).1
        PopupMsg.getState).2.state.1.lastSyncAt = none) :=
  ⟨rfl, Or.inr rfl, rfl⟩

/-! ## C10 -/

/-- **C10** — A `handleActivityEvent` call with a missing payload
returns with no state change at all: counter, sync status, timestamps,
the stored dedupe fingerprint, the persisted queue, storage and the
broadcast/notification logs are all exactly as before. -/
theorem C10_empty_payload_noop (st : BgState) (platform : String)
    (modeArg : Option String) (env : ActivityEnv) :
    handleActivityEvent st none platform modeArg env = st := rfl

/-! ## C6: the `lastSyncStatus` value set -/

/-- Any `handleActivityEvent` call keeps `lastSyncStatus` in
`statusValues`. -/
theorem handleActivity_statusValues (st : BgState) (p : Option Payload)
    (pf : String) (m : Option String) (env : ActivityEnv)
    (h : st.state.lastSyncStatus ∈ statusValues) :
    (handleActivityEvent st p pf m env).state.lastSyncStatus ∈ statusValues := by
  cases p with
  | none => exact h
  | some p =>
    obtain ⟨now, iso, outc⟩ := env
    simp only [handleActivityEvent]
    by_cases hdup : (st.lastActivityFingerprint = some (fingerprintOf p) ∧
        now - st.lastActivityAt < 2000)
    · rw [if_pos hdup]; exact h
    · rw [if_neg hdup]
      cases outc
      · exact (show ("success" : String) ∈ statusValues by decide)
      · exact (show ("error" : String) ∈ statusValues by decide)
      · exact (show ("error" : String) ∈ statusValues by decide)

/-- `setMode` never touches `lastSyncStatus`. -/
theorem setMode_status (st : BgState) (n : Option String) (sn : Bool) :
    (setMode st n sn).state.lastSyncStatus = st.state.lastSyncStatus := by
  simp only [setMode]
  split_ifs <;> rfl

/-- `setBackendBaseUrl` never touches `lastSyncStatus`. -/
theorem setBackendBaseUrl_status (st : BgState) (raw : Option String) :
    ((setBackendBaseUrl st raw).1).state.lastSyncStatus
      = st.state.lastSyncStatus := by
  simp only [setBackendBaseUrl]
  cases sanitizeBaseUrl raw <;> rfl

/-- `performHealthCheck` never touches `lastSyncStatus`. -/
theorem performHealthCheck_status (st : BgState) (f : Bool) (now : Nat)
    (ok : Bool) :
    (performHealthCheck st f now ok).state.lastSyncStatus
      = st.state.lastSyncStatus := by
  simp only [performHealthCheck]
  split_ifs <;> rfl

/-- Generic preservation through the drain loop. -/
theorem drainFrom_inv {P : BgState → Prop}
    (handle : Nat → QueueItem → BgState → Option BgState)
    (hstep : ∀ k item st st', handle k item st = some st' → P st → P st')
    (hset : ∀ st l, P st → P (setPendingActivities st l)) :
    ∀ (l : List QueueItem) (k : Nat) (st : BgState),
      P st → P (drainFrom handle k l st) := by
  intro l
  induction l with
  | nil => intro k st h; exact h
  | cons item rest ih =>
    intro k st h
    simp only [drainFrom]
    cases hh : handle k item st with
    | none => exact h
    | some st' =>
      exact ih (k + 1) _ (hset st' rest (hstep k item st st' hh h))

/-- A successful `handleQueuedItem` step is a `handleActivityEvent`
call. -/
theorem handleQueuedItem_some {envs : Nat → ItemEnv} {k : Nat}
    {item : QueueItem} {st st' : BgState}
    (h : handleQueuedItem envs k item st = some st') :
    st' = handleActivityEvent st (some item.payload) item.platform
      (some st.state.mode) (envs k).env := by
  unfold handleQueuedItem at h
  split_ifs at h
  exact (Option.some.injEq _ _ ▸ h).symm

/-- Every Coordinator operation keeps `lastSyncStatus` in
`statusValues`. -/
theorem applyOp_statusValues (st : BgState) (op : CoordOp)
    (h : st.state.lastSyncStatus ∈ statusValues) :
    (applyOp st op).state.lastSyncStatus ∈ statusValues := by
  cases op with
  | opActivity p pf m env => exact handleActivity_statusValues st p pf m env h
  | opDrain envs =>
    refine drainFrom_inv
      (P := fun s => s.state.lastSyncStatus ∈ statusValues)
      (handleQueuedItem envs) ?_ ?_ _ 0 st h
    · intro k item s s' hsome hs
      rw [handleQueuedItem_some hsome]
      exact handleActivity_statusValues s _ _ _ _ hs
    · intro s l hs
      exact hs
  | opSetMode next sn => rw [applyOp, setMode_status]; exact h
  | opSetBackendUrl raw => rw [applyOp, setBackendBaseUrl_status]; exact h
  | opClearStats => simp [applyOp, clearStats, persistState, writeKey, statusValues]
  | opCheckHealth f now ok => rw [applyOp, performHealthCheck_status]; exact h

/-- **C6 counterexample** — The claim confines `lastSyncStatus` to the
four-value set `{idle, syncing, success, error}` after every Coordinator
operation, but a single `clearStats()` from the initial state sets it to
`"synced"`, outside that set (contradicting the code's own comment on
the `STATE` literal). -/
theorem C6_counterexample :
    ¬ ((applyOps [CoordOp.opClearStats] initialBgState).state.lastSyncStatus ∈
      (["idle", "syncing", "success", "error"] : List String)) := by
  decide

/-- **C6 (amended)** — Starting from the initial Coordinator state,
after any sequence of Coordinator operations (`onActivity`, queue drain,
`setMode`, `setBackendBaseUrl`, `clearStats`, `checkHealth`),
`lastSyncStatus` stays within the five-value set
`{idle, syncing, success, error, synced}`; the fifth value `"synced"`
is written only by `clearStats`. -/
theorem C6_status_in_five_values (ops : List CoordOp) :
    (applyOps ops initialBgState).state.lastSyncStatus ∈ statusValues := by
  have main : ∀ (l : List CoordOp) (st : BgState),
      st.state.lastSyncStatus ∈ statusValues →
      (applyOps l st).state.lastSyncStatus ∈ statusValues := by
    intro l
    induction l with
    | nil => intro st h; exact h
    | cons op rest ih =>
      intro st h
      exact ih (applyOp st op) (applyOp_statusValues st op h)
  exact main ops initialBgState (by simp [statusValues, initialBgState,
    initialCoordState])

/-! ## C8: attachment size estimation -/

/-- Batteries' `Rat.floor` agrees with the `Int.floor` of `ℚ`. -/
theorem ratFloor_eq_intFloor (a : Rat) : a.floor = ⌊a⌋ := by
  rw [Rat.floor_def', Rat.floor_def]

/-- **C8 counterexample** — The claim says that whenever no size text is
found but at least one attachment indicator exists, `attachmentBytes`
"falls back to a fixed per-attachment estimate rather than zero".  For a
compose region with one attachment list item and no size text, the
extractor emits `attachmentCount = 1` but `attachmentBytes = 0`: the
extractors apply no such fallback. -/
theorem C8_counterexample :
    (extractGmailEmailData oneAttachmentNoSizeCompose).attachmentCount = 1 ∧
    (extractGmailEmailData oneAttachmentNoSizeCompose).attachmentBytes = 0 := by
  refine ⟨rfl, ?_⟩
  show jsRound (computeAttachmentTotalMb
    oneAttachmentNoSizeCompose.candidateTexts * 1000000) = 0
  have hc : computeAttachmentTotalMb
      oneAttachmentNoSizeCompose.candidateTexts = 0 := by decide
  rw [hc]
  simp only [jsRound, ratFloor_eq_intFloor]
  norm_num

/-- **C8 (amended)** — For every extracted ActivityEvent (Gmail or
Outlook), `attachmentBytes` equals
`Math.round(10⁶ · computeAttachmentTotalMb(texts))`, the sum of
recognized `KB`/`MB`/`B` size matches scanned from the compose region's
visible texts, with no attachment-count fallback; the fixed 1 MB
per-attachment fallback exists only in the hover-tooltip estimator
(`estimateEmailEmission` via `emissionTotalMb`), where it applies
exactly when no positive size text was found and at least one
attachment indicator exists. -/
theorem C8_no_fallback_in_extractor :
    (∀ cm : ComposeModel,
      (extractGmailEmailData cm).attachmentBytes
          = jsRound (computeAttachmentTotalMb cm.candidateTexts * 1000000) ∧
      (extractOutlookEmailData cm).attachmentBytes
          = jsRound (computeAttachmentTotalMb cm.candidateTexts * 1000000)) ∧
    (∀ cm : ComposeModel,
      guessAttachmentTotalMb cm.candidateTexts ≤ 0 →
      1 ≤ (extractGmailEmailData cm).attachmentCount →
      emissionTotalMb cm
        = ((extractGmailEmailData cm).attachmentCount : Rat)) := by
  refine ⟨fun cm => ⟨rfl, rfl⟩, fun cm h1 h2 => ?_⟩
  simp only [emissionTotalMb]
  rw [if_pos ⟨h1, h2⟩]
  exact mul_one _

/-! ## URL lemmas (for C5 and C7) -/

/-- `takeUntil` splits an appended list exactly at the seam when the
left part has no stop characters and the right part is empty or starts
with one. -/
theorem takeUntil_eq_append (p : Char → Bool) (a b : List Char)
    (ha : ∀ c ∈ a, p c = false)
    (hb : b = [] ∨ ∃ c cs, b = c :: cs ∧ p c = true) :
    takeUntil p (a ++ b) = (a, b) := by
  induction a with
  | nil =>
    rcases hb with rfl | ⟨c, cs, rfl, hc⟩
    · rfl
    · simp [takeUntil, hc]
  | cons x xs ih =>
    have hx : p x = false := ha x (List.mem_cons_self x xs)
    have hrec := ih (fun c hc => ha c (List.mem_cons_of_mem x hc))
    simp [takeUntil, hx, hrec]

/-- The remainder returned by `takeUntil` is empty or starts with a stop
character. -/
theorem takeUntil_snd_shape (p : Char → Bool) (l : List Char) :
    (takeUntil p l).2 = [] ∨
      ∃ c cs, (takeUntil p l).2 = c :: cs ∧ p c = true := by
  induction l with
  | nil => left; rfl
  | cons x xs ih =>
    by_cases hx : p x = true
    · right; exact ⟨x, xs, by simp [takeUntil, hx], hx⟩
    · have hx' : p x = false := by simpa using hx
      simpa [takeUntil, hx'] using ih

/-- Scheme characters are never `':'`. -/
theorem schemeChar_ne_colon {c : Char} (h : isSchemeChar c = true) :
    decide (c = ':') = false := by
  by_contra hx
  have hc : c = ':' := by simpa using hx
  subst hc
  exact absurd h (by decide)

/-- ASCII letters are never `':'`. -/
theorem alphaChar_ne_colon {c : Char} (h : isAlphaChar c = true) :
    decide (c = ':') = false := by
  by_contra hx
  have hc : c = ':' := by simpa using hx
  subst hc
  exact absurd h (by decide)

/-- No character of a valid scheme is `':'`. -/
theorem validScheme_no_colon {sch : List Char}
    (h : validSchemeChars sch = true) :
    ∀ c ∈ sch, decide (c = ':') = false := by
  cases sch with
  | nil => exact absurd h (by decide)
  | cons c0 cs =>
    simp only [validSchemeChars, Bool.and_eq_true, List.all_eq_true] at h
    intro c hc
    rcases List.mem_cons.mp hc with rfl | hmem
    · exact alphaChar_ne_colon h.1
    · exact schemeChar_ne_colon (h.2 c hmem)

/-- A non-forbidden host character is neither an authority stop nor a
colon. -/
theorem forbiddenFree_not_stop {c : Char}
    (h : isForbiddenHostChar c = false) :
    isAuthStop c = false ∧ decide (c = ':') = false := by
  constructor
  · by_contra hx
    have hx' : isAuthStop c = true := by simpa using hx
    simp only [isAuthStop, Bool.or_eq_true, decide_eq_true_eq] at hx'
    rcases hx' with (rfl | rfl) | rfl <;> exact absurd h (by decide)
  · by_contra hx
    have hc : c = ':' := by simpa using hx
    subst hc
    exact absurd h (by decide)

/-- Characters of a valid host are neither authority stops nor colons. -/
theorem validHost_chars {h : List Char} (hv : validHost h = true) :
    ∀ c ∈ h, isAuthStop c = false ∧ decide (c = ':') = false := by
  simp only [validHost, Bool.and_eq_true, List.all_eq_true] at hv
  intro c hc
  have hf := hv.2 c hc
  exact forbiddenFree_not_stop (by simpa using hf)

/-- Digits are not authority stops. -/
theorem digit_not_stop {c : Char} (h : isDigitChar c = true) :
    isAuthStop c = false := by
  by_contra hx
  have hx' : isAuthStop c = true := by simpa using hx
  simp only [isAuthStop, Bool.or_eq_true, decide_eq_true_eq] at hx'
  rcases hx' with (rfl | rfl) | rfl <;> exact absurd h (by decide)

/-- A successful `parseScheme` validated its scheme. -/
theorem parseScheme_sound {l sch rest : List Char}
    (h : parseScheme l = some (sch, rest)) :
    validSchemeChars sch = true := by
  simp only [parseScheme] at h
  split_ifs at h with hv
  split at h
  · simp only [Option.some.injEq, Prod.mk.injEq] at h
    exact h.1 ▸ hv
  · cases h

/-- A successful `parseAuthority` validated its host and port, and its
remainder is empty or starts with an authority stop. -/
theorem parseAuthority_sound {l host0 : List Char}
    {prt : Option (List Char)} {rest : List Char}
    (h : parseAuthority l = some ((host0, prt), rest)) :
    validHost host0 = true ∧
    (∀ pd, prt = some pd → pd.isEmpty = false ∧ pd.all isDigitChar = true ∧
      digitsVal pd ≤ 65535) ∧
    (rest = [] ∨ ∃ c cs, rest = c :: cs ∧ isAuthStop c = true) := by
  have hshape := takeUntil_snd_shape isAuthStop l
  simp only [parseAuthority] at h
  split_ifs at h with hv
  split at h
  · -- host-only: port `none`
    simp only [Option.some.injEq, Prod.mk.injEq] at h
    obtain ⟨⟨h1, h2⟩, h3⟩ := h
    subst h1
    subst h3
    refine ⟨hv, ?_, hshape⟩
    intro pd hpd
    rw [← h2] at hpd
    cases hpd
  · -- `':' :: pds`
    rename_i pds hpds
    split_ifs at h with hemp hdig
    · simp only [Option.some.injEq, Prod.mk.injEq] at h
      obtain ⟨⟨h1, h2⟩, h3⟩ := h
      subst h1
      subst h3
      refine ⟨hv, ?_, hshape⟩
      intro pd hpd
      rw [← h2] at hpd
      cases hpd
    · simp only [Option.some.injEq, Prod.mk.injEq] at h
      obtain ⟨⟨h1, h2⟩, h3⟩ := h
      subst h1
      subst h3
      simp only [Bool.and_eq_true, decide_eq_true_eq] at hdig
      refine ⟨hv, ?_, hshape⟩
      intro pd hpd
      rw [← h2] at hpd
      injection hpd with hpp
      subst hpp
      exact ⟨by simpa using hemp, hdig.1, hdig.2⟩
  · cases h

/-- The path component is whatever precedes the first `?`/`#`. -/
theorem parsePQF_fst (l : List Char) :
    (parsePathQueryFrag l).1
      = (takeUntil (fun c => c = '?' || c = '#') l).1 := by
  simp only [parsePathQueryFrag]
  split
  · split <;> rfl
  · rfl
  · rfl

/-- If the input is empty or starts with an authority stop, the parsed
path is empty or starts with `'/'`. -/
theorem path_shape_of_rest {l : List Char}
    (hl : l = [] ∨ ∃ c cs, l = c :: cs ∧ isAuthStop c = true) :
    (parsePathQueryFrag l).1 = []
      ∨ ∃ t, (parsePathQueryFrag l).1 = '/' :: t := by
  rw [parsePQF_fst]
  rcases hl with rfl | ⟨c, cs, rfl, hc⟩
  · left; rfl
  · simp only [isAuthStop, Bool.or_eq_true, decide_eq_true_eq] at hc
    rcases hc with (rfl | rfl) | rfl
    · right
      exact ⟨(takeUntil (fun c => c = '?' || c = '#') cs).1, by
        simp [takeUntil]⟩
    · left; simp [takeUntil]
    · left; simp [takeUntil]

/-- Invariants of every successfully parsed URL. -/
theorem parseUrlChars_wf {l : List Char} {u : UrlModel}
    (h : parseUrlChars l = some u) :
    validSchemeChars u.scheme = true ∧ validHost u.host = true ∧
    (∀ pd, u.port = some pd → pd.isEmpty = false ∧
      pd.all isDigitChar = true ∧ digitsVal pd ≤ 65535) ∧
    (u.path = [] ∨ ∃ t, u.path = '/' :: t) := by
  simp only [parseUrlChars] at h
  split at h
  · cases h
  · rename_i sch r1 hps
    split at h
    · cases h
    · rename_i h0 prt r2 hpa
      simp only [Option.some.injEq] at h
      obtain ⟨hh1, hh2, hh3⟩ := parseAuthority_sound hpa
      subst h
      refine ⟨parseScheme_sound hps, hh1, ?_, path_shape_of_rest hh3⟩
      intro pd hpd
      simp only [elidePort] at hpd
      split at hpd
      · cases hpd
      · split_ifs at hpd
        first
          | exact hh2 pd rfl
          | exact hh2 pd (by rw [hpd])

/-- Witness for C8 (amended) at the one-attachment, no-size-text
compose snapshot. -/
theorem C8_witness :
    emissionTotalMb oneAttachmentNoSizeCompose
      = ((extractGmailEmailData oneAttachmentNoSizeCompose).attachmentCount : Rat) ∧
    (extractGmailEmailData oneAttachmentNoSizeCompose).attachmentBytes
      = jsRound (computeAttachmentTotalMb
          oneAttachmentNoSizeCompose.candidateTexts * 1000000) :=
  ⟨C8_no_fallback_in_extractor.2 oneAttachmentNoSizeCompose (by decide)
      (by decide),
    (C8_no_fallback_in_extractor.1 oneAttachmentNoSizeCompose).1⟩

/-! ## URL serialization round-trip -/

/-- `stripTrailingSlash` only affects the non-empty right part of an
append. -/
theorem stripTrailingSlash_append (a b : List Char) (hb : b ≠ []) :
    stripTrailingSlash (a ++ b) = a ++ stripTrailingSlash b := by
  induction a with
  | nil => rfl
  | cons x xs ih =>
    have hxb : xs ++ b ≠ [] := fun hc => hb (List.append_eq_nil.mp hc).2
    simp only [List.cons_append, stripTrailingSlash, List.append_eq]
    rw [if_neg hxb, ih]

/-- The serialized tail (path and query) of a parsed URL starts with
`'/'`. -/
theorem serializeTail_head (u : UrlModel)
    (hpath : u.path = [] ∨ ∃ t, u.path = '/' :: t) :
    ∃ r0, serializeTail u = '/' :: r0 := by
  rcases hpath with hp | ⟨t, hp⟩
  · exact ⟨(match u.query with | none => [] | some q => '?' :: q),
      by simp [serializeTail, hp]⟩
  · exact ⟨t ++ (match u.query with | none => [] | some q => '?' :: q),
      by simp [serializeTail, hp]⟩

/-- The serialized tail is never empty. -/
theorem serializeTail_ne_nil (u : UrlModel) : serializeTail u ≠ [] := by
  unfold serializeTail
  intro hc
  rcases List.append_eq_nil.mp hc with ⟨h1, -⟩
  by_cases hp : u.path.isEmpty
  · rw [if_pos hp] at h1; cases h1
  · rw [if_neg hp] at h1
    exact hp (by simp [h1])

/-- After stripping one trailing slash, the tail is empty or starts with
an authority stop. -/
theorem strippedTail_shape (u : UrlModel)
    (hpath : u.path = [] ∨ ∃ t, u.path = '/' :: t) :
    stripTrailingSlash (serializeTail u) = [] ∨
      ∃ c cs, stripTrailingSlash (serializeTail u) = c :: cs ∧
        isAuthStop c = true := by
  obtain ⟨r0, hr⟩ := serializeTail_head u hpath
  rw [hr]
  by_cases h0 : r0 = []
  · subst h0; left; rfl
  · right
    refine ⟨'/', stripTrailingSlash r0, ?_, by decide⟩
    simp only [stripTrailingSlash]
    rw [if_neg h0]

/-- Reparsing a normalized (fragment-cleared, slash-stripped) parsed URL
succeeds: the output of `sanitizeBaseUrl`'s success path is itself a
valid absolute URL. -/
theorem parse_normalize_isSome {l : List Char} {u : UrlModel}
    (h : parseUrlChars l = some u) :
    (parseUrlChars (normalizeParsedUrl u)).isSome = true := by
  obtain ⟨hsch, hhost, hport, hpath⟩ := parseUrlChars_wf h
  set pp : List Char :=
    (match u.port with | none => [] | some p => ':' :: p) with hpp
  have hser : urlToStringChars { u with fragment := none }
      = u.scheme ++ ':' :: '/' :: '/' ::
          ((u.host ++ pp) ++ serializeTail u) := by
    simp [urlToStringChars, hpp, serializeTail]
  have hnorm : normalizeParsedUrl u
      = u.scheme ++ ':' :: '/' :: '/' ::
          ((u.host ++ pp) ++ stripTrailingSlash (serializeTail u)) := by
    unfold normalizeParsedUrl
    rw [hser]
    rw [show u.scheme ++ ':' :: '/' :: '/' ::
          ((u.host ++ pp) ++ serializeTail u)
        = (u.scheme ++ ':' :: '/' :: '/' :: (u.host ++ pp)) ++
            serializeTail u by simp]
    rw [stripTrailingSlash_append _ _ (serializeTail_ne_nil u)]
    simp
  set t' := stripTrailingSlash (serializeTail u) with ht'
  have hts := strippedTail_shape u hpath
  rw [hnorm]
  have hps : parseScheme (u.scheme ++ ':' :: '/' :: '/' ::
      ((u.host ++ pp) ++ t')) = some (u.scheme, (u.host ++ pp) ++ t') := by
    simp only [parseScheme]
    rw [takeUntil_eq_append _ _ _ (validScheme_no_colon hsch)
      (Or.inr ⟨':', _, rfl, by decide⟩)]
    simp [hsch]
  have hstopA : ∀ c ∈ u.host ++ pp, isAuthStop c = false := by
    intro c hc
    rcases List.mem_append.mp hc with hc | hc
    · exact (validHost_chars hhost c hc).1
    · cases hu : u.port with
      | none => simp [hpp, hu] at hc
      | some pd =>
        obtain ⟨hne, hdig, hle⟩ := hport pd hu
        simp only [hpp, hu] at hc
        rcases List.mem_cons.mp hc with rfl | hcd
        · decide
        · exact digit_not_stop (List.all_eq_true.mp hdig c hcd)
  have hcolonH : ∀ c ∈ u.host, decide (c = ':') = false :=
    fun c hc => (validHost_chars hhost c hc).2
  have hpa : parseAuthority ((u.host ++ pp) ++ t')
      = some ((u.host, u.port), t') := by
    simp only [parseAuthority]
    rw [takeUntil_eq_append _ _ _ hstopA hts]
    cases hu : u.port with
    | none =>
      have hpe : pp = [] := by simp [hpp, hu]
      rw [hpe, List.append_nil]
      have hth := takeUntil_eq_append (fun c => decide (c = ':'))
        u.host [] hcolonH (Or.inl rfl)
      rw [List.append_nil] at hth
      rw [hth]
      simp [hhost]
    | some pd =>
      obtain ⟨hne, hdig, hle⟩ := hport pd hu
      have hppd : pp = ':' :: pd := by simp [hpp, hu]
      rw [hppd]
      rw [takeUntil_eq_append _ _ _ hcolonH
        (Or.inr ⟨':', pd, rfl, by decide⟩)]
      simp [hhost, hne, hdig, hle]
  simp only [parseUrlChars, hps, hpa, Option.isSome_some]

/-- Every string `sanitizeBaseUrl` returns is a valid absolute URL in
the model. -/
theorem sanitizeBaseUrl_valid {v : Option String} {s : String}
    (h : sanitizeBaseUrl v = some s) : IsValidAbsoluteUrl s := by
  unfold IsValidAbsoluteUrl parseUrl
  rcases v with _ | v
  · cases h
  · simp only [sanitizeBaseUrl] at h
    split_ifs at h with h1 h2
    split at h
    · rename_i u hp1
      injection h with hs
      subst hs
      exact parse_normalize_isSome hp1
    · split at h
      · rename_i u hp2
        injection h with hs
        subst hs
        exact parse_normalize_isSome hp2
      · cases h

/-! ## C5 -/

/-- **C5** — `setBackendBaseUrl` rejects every input that neither parses
as an absolute URL nor can be coerced to one under the default `https`
scheme, with an explicit error and without mutating any state (the pair
result returns the input state unchanged); concretely,
`"not a url, no scheme, no dots"` is rejected, and the bare host
`"api.example.com"` is normalized to `"https://api.example.com"` and
stored. -/
theorem C5_setBackendBaseUrl_validation :
    (∀ (st : BgState) (raw : Option String), sanitizeBaseUrl raw = none →
      setBackendBaseUrl st raw = (st, some backendUrlErrorMsg)) ∧
    sanitizeBaseUrl (some "not a url, no scheme, no dots") = none ∧
    (∀ st : BgState,
      setBackendBaseUrl st (some "api.example.com")
        = (persistState { st with state := { st.state with
            backendBaseUrl := "https://api.example.com" } }
            [SKey.kBackendBaseUrl], none)) := by
  refine ⟨fun st raw h => ?_, by decide, fun st => ?_⟩
  · unfold setBackendBaseUrl
    rw [h]
  · unfold setBackendBaseUrl
    rw [show sanitizeBaseUrl (some "api.example.com")
        = some "https://api.example.com" by decide]

/-- Witness for C5 at the spec's malformed input. -/
theorem C5_witness :
    setBackendBaseUrl initialBgState (some "not a url, no scheme, no dots")
      = (initialBgState, some backendUrlErrorMsg) :=
  C5_setBackendBaseUrl_validation.1 initialBgState _ (by decide)

/-! ## C7 -/

/-- `handleActivityEvent` never changes `mode` or `backendBaseUrl`. -/
theorem handleActivity_mode_url (st : BgState) (p : Option Payload)
    (pf : String) (m : Option String) (env : ActivityEnv) :
    (handleActivityEvent st p pf m env).state.mode = st.state.mode ∧
    (handleActivityEvent st p pf m env).state.backendBaseUrl
      = st.state.backendBaseUrl := by
  cases p with
  | none => exact ⟨rfl, rfl⟩
  | some p =>
    obtain ⟨now, iso, outc⟩ := env
    simp only [handleActivityEvent]
    by_cases hdup : (st.lastActivityFingerprint = some (fingerprintOf p) ∧
        now - st.lastActivityAt < 2000)
    · rw [if_pos hdup]; exact ⟨rfl, rfl⟩
    · rw [if_neg hdup]
      cases outc <;> split_ifs <;> exact ⟨rfl, rfl⟩

/-- `performHealthCheck` never changes `mode` or `backendBaseUrl`. -/
theorem performHealthCheck_mode_url (st : BgState) (f : Bool) (now : Nat)
    (ok : Bool) :
    (performHealthCheck st f now ok).state.mode = st.state.mode ∧
    (performHealthCheck st f now ok).state.backendBaseUrl
      = st.state.backendBaseUrl := by
  unfold performHealthCheck
  split_ifs <;> exact ⟨rfl, rfl⟩

/-- What rehydration computes for `mode` and `backendBaseUrl` (the drain
that follows touches neither). -/
theorem initializeState_mode_url (st : BgState) (now : Nat) (fetchOk : Bool)
    (envs : Nat → ItemEnv) :
    (initializeState st now fetchOk envs).state.mode
      = (if st.storage.mode = some "silent" then "silent"
          else "awareness") ∧
    (initializeState st now fetchOk envs).state.backendBaseUrl
      = jsOrString (sanitizeBaseUrl st.storage.backendBaseUrl)
          DEFAULT_BACKEND_BASE_URL := by
  unfold initializeState processPendingActivities
  refine drainFrom_inv
    (P := fun s =>
      s.state.mode = (if st.storage.mode = some "silent" then "silent"
        else "awareness") ∧
      s.state.backendBaseUrl
        = jsOrString (sanitizeBaseUrl st.storage.backendBaseUrl)
            DEFAULT_BACKEND_BASE_URL)
    (handleQueuedItem envs) ?_ ?_ _ 0 _ ?_
  · intro k item s s' hsome hs
    rw [handleQueuedItem_some hsome]
    obtain ⟨hm, hu⟩ := handleActivity_mode_url s (some item.payload)
      item.platform (some s.state.mode) (envs k).env
    exact ⟨hm.trans hs.1, hu.trans hs.2⟩
  · intro s l hs; exact hs
  · exact ⟨(performHealthCheck_mode_url _ false now fetchOk).1,
      (performHealthCheck_mode_url _ false now fetchOk).2⟩

/-- `setMode` always leaves `mode` in the two-value enum and never
touches `backendBaseUrl`. -/
theorem setMode_mode_url (st : BgState) (next : Option String) (sn : Bool) :
    ((setMode st next sn).state.mode = "awareness" ∨
      (setMode st next sn).state.mode = "silent") ∧
    (setMode st next sn).state.backendBaseUrl
      = st.state.backendBaseUrl := by
  simp only [setMode]
  split_ifs <;>
    first
      | exact ⟨Or.inr ‹st.state.mode = "silent"›, rfl⟩
      | exact ⟨Or.inl ‹st.state.mode = "awareness"›, rfl⟩
      | exact ⟨Or.inl rfl, rfl⟩
      | exact ⟨Or.inr rfl, rfl⟩

/-- **C7** — After Coordinator cold-start rehydration from any Durable
State Store contents, `mode` is exactly one of `"awareness"` or
`"silent"` (defaulting to `"awareness"` for any stored value other than
`"silent"`), and `backendBaseUrl` is a valid absolute URL or the
compiled-in default; `setMode` preserves this for every input value
(its result's `mode` is always in the enum and it never touches
`backendBaseUrl`). -/
theorem C7_mode_and_url_invariants (st : BgState) (now : Nat)
    (fetchOk : Bool) (envs : Nat → ItemEnv) :
    ((initializeState st now fetchOk envs).state.mode = "awareness" ∨
      (initializeState st now fetchOk envs).state.mode = "silent") ∧
    (st.storage.mode ≠ some "silent" →
      (initializeState st now fetchOk envs).state.mode = "awareness") ∧
    (IsValidAbsoluteUrl
        (initializeState st now fetchOk envs).state.backendBaseUrl ∨
      (initializeState st now fetchOk envs).state.backendBaseUrl
        = DEFAULT_BACKEND_BASE_URL) ∧
    (∀ (st' : BgState) (next : Option String) (sn : Bool),
      ((setMode st' next sn).state.mode = "awareness" ∨
        (setMode st' next sn).state.mode = "silent") ∧
      (setMode st' next sn).state.backendBaseUrl
        = st'.state.backendBaseUrl) := by
  obtain ⟨hm, hu⟩ := initializeState_mode_url st now fetchOk envs
  refine ⟨?_, ?_, ?_, fun st' next sn => setMode_mode_url st' next sn⟩
  · rw [hm]
    by_cases hs : st.storage.mode = some "silent"
    · rw [if_pos hs]; exact Or.inr rfl
    · rw [if_neg hs]; exact Or.inl rfl
  · intro hne
    rw [hm, if_neg hne]
  · rw [hu]
    cases hsv : sanitizeBaseUrl st.storage.backendBaseUrl with
    | none => exact Or.inr rfl
    | some u0 =>
      by_cases h0 : u0 = ""
      · right; simp [jsOrString, h0]
      · left
        have hv := sanitizeBaseUrl_valid hsv
        simpa [jsOrString, h0] using hv

/-- Witness for C7 on an empty store (no stored mode). -/
theorem C7_witness :
    initialBgState.storage.mode ≠ some "silent" ∧
    (initializeState initialBgState 0 true
        (fun _ => { throws := false, env := envSuccess })).state.mode
      = "awareness" := by
  have hne : initialBgState.storage.mode ≠ some "silent" :=
    fun hc => Option.noConfusion hc
  exact ⟨hne,
    (C7_mode_and_url_invariants initialBgState 0 true
      (fun _ => { throws := false, env := envSuccess })).2.1 hne⟩

end CarbonLens
